import Mathlib

/-!
Shallow embedding of the Corsair Vengeance K90 HID driver
(hid-corsair-k90.c): the device-state record, the usage classifier and
G-key mapping table, the sysfs control-surface read/write handlers, the
attach-time initialization and the input-event handler.

USB control transactions are modelled by an oracle: each outbound handler
receives the result the transport would return (`txRet`) and reports, as
part of its output, which transaction (request code and wValue) it
actually issued, so that "no transaction was sent" is directly statable.
A dereference of an absent device-state pointer (a null `drvdata`) is
recorded by a `crashed` flag instead of undefined behaviour.
-/

/-- Linux errno constant `EINVAL` (handlers return its negation). -/
def EINVAL : Int := 22

/-- Linux errno constant `ENOSYS`. -/
def ENOSYS : Int := 38

/-- Linux errno constant `ENOMEM`. -/
def ENOMEM : Int := 12

/-- Vendor request code for setting brightness. -/
def K90_REQUEST_BRIGHTNESS : Nat := 49

/-- Vendor request code shared by macro-mode and macro-record-LED writes. -/
def K90_REQUEST_MACRO_MODE : Nat := 2

/-- Vendor request code for the initial status query. -/
def K90_REQUEST_STATUS : Nat := 4

/-- Vendor request code for selecting the active profile. -/
def K90_REQUEST_PROFILE : Nat := 20

/-- Parameter value sent for software macro mode. -/
def K90_MACRO_MODE_SW : Nat := 0x0030

/-- Parameter value sent for hardware macro mode. -/
def K90_MACRO_MODE_HW : Nat := 0x0001

/-- Parameter value sent to turn the macro-record LED on. -/
def K90_MACRO_LED_ON : Nat := 0x0020

/-- Parameter value sent to turn the macro-record LED off. -/
def K90_MACRO_LED_OFF : Nat := 0x0040

/-- Lower bound of the special-function usage range. -/
def K90_USAGE_SPECIAL_MIN : Nat := 0xf0

/-- Upper bound of the special-function usage range. -/
def K90_USAGE_SPECIAL_MAX : Nat := 0xff

/-- Usage code reporting that macro recording started. -/
def K90_USAGE_MACRO_RECORD_START : Nat := 0xf6

/-- Usage code reporting that macro recording stopped. -/
def K90_USAGE_MACRO_RECORD_STOP : Nat := 0xf7

/-- Base usage code of the profile keys (equals the M1 code). -/
def K90_USAGE_PROFILE : Nat := 0xf1

/-- Usage code of profile key M1. -/
def K90_USAGE_M1 : Nat := 0xf1

/-- Usage code of profile key M2. -/
def K90_USAGE_M2 : Nat := 0xf2

/-- Usage code of profile key M3. -/
def K90_USAGE_M3 : Nat := 0xf3

/-- Usage code reporting meta lock off. -/
def K90_USAGE_META_OFF : Nat := 0xf4

/-- Usage code reporting meta lock on. -/
def K90_USAGE_META_ON : Nat := 0xf5

/-- Base usage code of the illumination reports (equals the light-off code). -/
def K90_USAGE_LIGHT : Nat := 0xfa

/-- Usage code reporting illumination off. -/
def K90_USAGE_LIGHT_OFF : Nat := 0xfa

/-- Usage code reporting dim illumination. -/
def K90_USAGE_LIGHT_DIM : Nat := 0xfb

/-- Usage code reporting medium illumination. -/
def K90_USAGE_LIGHT_MEDIUM : Nat := 0xfc

/-- Usage code reporting bright illumination. -/
def K90_USAGE_LIGHT_BRIGHT : Nat := 0xfd

/-- Mask `HID_USAGE` (0xffff) applied to `usage->hid` to extract the usage code. -/
def HID_USAGE_MASK : Nat := 0xffff

/-- Linux input key code `KEY_F13`. -/
def KEY_F13 : Nat := 183

/-- Linux input key code `KEY_F14`. -/
def KEY_F14 : Nat := 184

/-- Linux input key code `KEY_F15`. -/
def KEY_F15 : Nat := 185

/-- Linux input key code `KEY_F16`. -/
def KEY_F16 : Nat := 186

/-- Linux input key code `KEY_F17`. -/
def KEY_F17 : Nat := 187

/-- Linux input key code `KEY_F18`. -/
def KEY_F18 : Nat := 188

/-- Linux input key code `KEY_F19`. -/
def KEY_F19 : Nat := 189

/-- Linux input key code `KEY_F20`. -/
def KEY_F20 : Nat := 190

/-- Linux input key code `KEY_F21`. -/
def KEY_F21 : Nat := 191

/-- Linux input key code `KEY_F22`. -/
def KEY_F22 : Nat := 192

/-- Linux input key code `KEY_F23`. -/
def KEY_F23 : Nat := 193

/-- Linux input key code `KEY_F24`. -/
def KEY_F24 : Nat := 194

/-- Linux input button code `BTN_MISC` (0x100). -/
def BTN_MISC : Nat := 0x100

/-- Device State cached by the driver, `struct k90_drvdata`.  The C fields
are `int`; the three flag fields only ever hold 0 or 1 and are embedded as
`Bool`. -/
structure k90_drvdata where
  brightness : Int
  current_profile : Int
  macro_mode : Bool
  macro_record : Bool
  meta_locked : Bool
deriving Repr, DecidableEq

/-- Classifier `k90_usage_to_gkey`: map a usage code to a G-key index
1..18, or 0 when the code is not a G-key. -/
def k90_usage_to_gkey (usage : Nat) : Nat :=
  if 0xd0 ≤ usage ∧ usage ≤ 0xdf then usage - 0xd0 + 1
  else if 0xe8 ≤ usage ∧ usage ≤ 0xe9 then usage - 0xe8 + 17
  else 0

/-- Default G-key mapping table `k90_gkey_map` (module parameter default). -/
def k90_gkey_map : List Nat :=
  [KEY_F13, KEY_F14, KEY_F15, KEY_F16, KEY_F17, KEY_F18,
   KEY_F19, KEY_F20, KEY_F21, KEY_F22, KEY_F23, KEY_F24,
   BTN_MISC + 0, BTN_MISC + 1, BTN_MISC + 2,
   BTN_MISC + 3, BTN_MISC + 4, BTN_MISC + 5]

/-- C `strncmp` on null-terminated strings embedded as `List Char`
(the end of the list is the terminator): compare at most `n` characters,
stopping at the first difference or terminator. -/
def strncmp : List Char → List Char → Nat → Int
  | _, _, 0 => 0
  | [], [], _ + 1 => 0
  | [], c :: _, _ + 1 => -(c.toNat : Int)
  | c :: _, [], _ + 1 => (c.toNat : Int)
  | a :: s1, b :: s2, n + 1 =>
    if a = b then strncmp s1 s2 n else (a.toNat : Int) - (b.toNat : Int)

/-- Decimal value of a digit string, accumulator style. -/
def digitsVal : List Char → Nat → Nat
  | [], acc => acc
  | c :: cs, acc => digitsVal cs (acc * 10 + (c.toNat - 48))

/-- Kernel `kstrtoint(s, 10, &res)`: an optional single sign, at least one
decimal digit, an optional single trailing newline, nothing else, and the
value must fit in a 32-bit `int`.  All failure modes (`-EINVAL`,
`-ERANGE`) are collapsed to `none`, as the driver maps any nonzero return
to `-EINVAL`. -/
def kstrtoint (s : List Char) : Option Int :=
  let signAndBody : Bool × List Char :=
    match s with
    | '-' :: rest => (true, rest)
    | '+' :: rest => (false, rest)
    | _ => (false, s)
  let ds := signAndBody.2.takeWhile Char.isDigit
  let rest := signAndBody.2.dropWhile Char.isDigit
  if ds.isEmpty then none
  else
    let rest2 : List Char :=
      match rest with
      | '\n' :: r => r
      | r => r
    if !rest2.isEmpty then none
    else
      let v : Int :=
        if signAndBody.1 then -(digitsVal ds 0 : Int) else (digitsVal ds 0 : Int)
      if v < -(2 ^ 31) ∨ 2 ^ 31 - 1 < v then none else some v

/-- Control transaction issued through `usb_control_msg`: the vendor
request code and the wValue parameter. -/
structure k90_tx where
  request : Nat
  value : Nat
deriving Repr, DecidableEq

/-- Outcome of a sysfs store handler: the device state after the call,
the `ssize_t` return value, the transaction issued (if any), and whether
the handler dereferenced an absent (null) `drvdata`. -/
structure k90_store_out where
  drvdata : Option k90_drvdata
  ret : Int
  tx : Option k90_tx
  crashed : Bool
deriving Repr, DecidableEq

/-- Store handler `k90_store_brightness`: parse a decimal integer, reject
values outside [0,3], send request 49 with the value, and on transaction
success cache the value and return `count`. -/
def k90_store_brightness (buf : List Char) (count : Nat) (txRet : Int)
    (drvdata : Option k90_drvdata) : k90_store_out :=
  match kstrtoint buf with
  | none => ⟨drvdata, -EINVAL, none, false⟩
  | some brightness =>
    if brightness < 0 ∨ 3 < brightness then ⟨drvdata, -EINVAL, none, false⟩
    else
      let tx : k90_tx := ⟨K90_REQUEST_BRIGHTNESS, brightness.toNat⟩
      if txRet ≠ 0 then ⟨drvdata, txRet, some tx, false⟩
      else
        match drvdata with
        | some d => ⟨some { d with brightness := brightness }, (count : Int), some tx, false⟩
        | none => ⟨none, 0, some tx, true⟩

/-- Store handler `k90_store_macro_mode`: `strncmp` against "SW" then
"HW" (two characters each), send request 2 with the selected parameter,
and on success set `macro_mode` to whether the hardware value was sent. -/
def k90_store_macro_mode (buf : List Char) (count : Nat) (txRet : Int)
    (drvdata : Option k90_drvdata) : k90_store_out :=
  let branch : Option Nat :=
    if strncmp buf ['S', 'W'] 2 = 0 then some K90_MACRO_MODE_SW
    else if strncmp buf ['H', 'W'] 2 = 0 then some K90_MACRO_MODE_HW
    else none
  match branch with
  | none => ⟨drvdata, -EINVAL, none, false⟩
  | some value =>
    let tx : k90_tx := ⟨K90_REQUEST_MACRO_MODE, value⟩
    if txRet ≠ 0 then ⟨drvdata, txRet, some tx, false⟩
    else
      match drvdata with
      | some d =>
        ⟨some { d with macro_mode := value == K90_MACRO_MODE_HW }, (count : Int),
         some tx, false⟩
      | none => ⟨none, 0, some tx, true⟩

/-- Store handler `k90_store_macro_record`: `strncmp` against "ON" (two
characters) then "OFF" (three characters), send request 2 with the LED
parameter, and on success set `macro_record` to whether the LED-on value
was sent. -/
def k90_store_macro_record (buf : List Char) (count : Nat) (txRet : Int)
    (drvdata : Option k90_drvdata) : k90_store_out :=
  let branch : Option Nat :=
    if strncmp buf ['O', 'N'] 2 = 0 then some K90_MACRO_LED_ON
    else if strncmp buf ['O', 'F', 'F'] 3 = 0 then some K90_MACRO_LED_OFF
    else none
  match branch with
  | none => ⟨drvdata, -EINVAL, none, false⟩
  | some value =>
    let tx : k90_tx := ⟨K90_REQUEST_MACRO_MODE, value⟩
    if txRet ≠ 0 then ⟨drvdata, txRet, some tx, false⟩
    else
      match drvdata with
      | some d =>
        ⟨some { d with macro_record := value == K90_MACRO_LED_ON }, (count : Int),
         some tx, false⟩
      | none => ⟨none, 0, some tx, true⟩

/-- Store handler `k90_store_current_profile`: parse a decimal integer,
reject values outside [1,3], send request 20 with the value, and on
success cache the value and return `count`. -/
def k90_store_current_profile (buf : List Char) (count : Nat) (txRet : Int)
    (drvdata : Option k90_drvdata) : k90_store_out :=
  match kstrtoint buf with
  | none => ⟨drvdata, -EINVAL, none, false⟩
  | some profile =>
    if profile < 1 ∨ 3 < profile then ⟨drvdata, -EINVAL, none, false⟩
    else
      let tx : k90_tx := ⟨K90_REQUEST_PROFILE, profile.toNat⟩
      if txRet ≠ 0 then ⟨drvdata, txRet, some tx, false⟩
      else
        match drvdata with
        | some d => ⟨some { d with current_profile := profile }, (count : Int), some tx, false⟩
        | none => ⟨none, 0, some tx, true⟩

/-- Show handler `k90_show_brightness`: reject an absent state with
`-ENOSYS`, otherwise format the cached brightness and a newline. -/
def k90_show_brightness (drvdata : Option k90_drvdata) : Except Int (List Char) :=
  match drvdata with
  | none => .error (-ENOSYS)
  | some d => .ok ((toString d.brightness).data ++ ['\n'])

/-- Show handler `k90_show_macro_mode`: reject an absent state with
`-ENOSYS`, otherwise "HW" or "SW" and a newline. -/
def k90_show_macro_mode (drvdata : Option k90_drvdata) : Except Int (List Char) :=
  match drvdata with
  | none => .error (-ENOSYS)
  | some d => .ok ((if d.macro_mode then ['H', 'W'] else ['S', 'W']) ++ ['\n'])

/-- Show handler `k90_show_macro_record`: reject an absent state with
`-ENOSYS`, otherwise "ON" or "OFF" and a newline. -/
def k90_show_macro_record (drvdata : Option k90_drvdata) : Except Int (List Char) :=
  match drvdata with
  | none => .error (-ENOSYS)
  | some d => .ok ((if d.macro_record then ['O', 'N'] else ['O', 'F', 'F']) ++ ['\n'])

/-- Show handler `k90_show_current_profile`: reject an absent state with
`-ENOSYS`, otherwise format the cached profile and a newline. -/
def k90_show_current_profile (drvdata : Option k90_drvdata) : Except Int (List Char) :=
  match drvdata with
  | none => .error (-ENOSYS)
  | some d => .ok ((toString d.current_profile).data ++ ['\n'])

/-- Outcome of `k90_init_special_functions`: the drvdata installed on the
hid device, the return value, and whether the status-query failure
warning was printed. -/
structure k90_init_out where
  drvdata : Option k90_drvdata
  ret : Int
  logged : Bool
deriving Repr, DecidableEq

/-- Attach-time initialization `k90_init_special_functions`.  `ifnum` is
the USB interface number; `allocOk` is whether `kzalloc` succeeds;
`queryRet` and `data` are the result of the status control transfer and
the 8-byte buffer after it (bytes as 0..255); `sysfsRet` is the result of
`sysfs_create_group`.  On interface 0 the zero-filled allocation is
seeded from the query reply, or from the defaults 0/1 with a warning when
the query failed (negative result); other interfaces get no state. -/
def k90_init_special_functions (ifnum : Nat) (allocOk : Bool)
    (queryRet : Int) (data : List Nat) (sysfsRet : Int) : k90_init_out :=
  if ifnum = 0 then
    if !allocOk then ⟨none, -ENOMEM, false⟩
    else
      let zeroed : k90_drvdata := ⟨0, 0, false, false, false⟩
      let seeded : k90_drvdata × Bool :=
        if queryRet < 0 then
          ({ zeroed with brightness := 0, current_profile := 1 }, true)
        else
          let fromReply : k90_drvdata :=
            { zeroed with
              brightness := (data.getD 4 0 : Int)
              current_profile := (data.getD 7 0 : Int) }
          (fromReply, false)
      if sysfsRet ≠ 0 then ⟨none, sysfsRet, seeded.2⟩
      else ⟨some seeded.1, 0, seeded.2⟩
  else ⟨none, 0, false⟩

/-- Outcome of the event handler: the device state after the call, the
return value, and the transaction issued (always `none`: `k90_event`
performs no USB I/O). -/
structure k90_event_out where
  drvdata : Option k90_drvdata
  ret : Int
  tx : Option k90_tx
deriving Repr, DecidableEq

/-- Event handler `k90_event`: dispatch on `usage->hid & HID_USAGE` and
apply the corresponding state transition; a null `drvdata` and every
unrecognized usage leave the state unchanged; the return value is always
0 and no transaction is sent.  The report `value` is accepted but never
consulted. -/
def k90_event (hid : Nat) (value : Int) (drvdata : Option k90_drvdata) : k90_event_out :=
  match drvdata with
  | none => ⟨none, 0, none⟩
  | some d =>
    let u := hid % (HID_USAGE_MASK + 1)
    let d2 : k90_drvdata :=
      if u = K90_USAGE_MACRO_RECORD_START then { d with macro_record := true }
      else if u = K90_USAGE_MACRO_RECORD_STOP then { d with macro_record := false }
      else if u = K90_USAGE_M1 ∨ u = K90_USAGE_M2 ∨ u = K90_USAGE_M3 then
        { d with current_profile := (u : Int) - (K90_USAGE_PROFILE : Int) + 1 }
      else if u = K90_USAGE_META_OFF then { d with meta_locked := false }
      else if u = K90_USAGE_META_ON then { d with meta_locked := false }
      else if u = K90_USAGE_LIGHT_OFF ∨ u = K90_USAGE_LIGHT_DIM ∨
          u = K90_USAGE_LIGHT_MEDIUM ∨ u = K90_USAGE_LIGHT_BRIGHT then
        { d with brightness := (u : Int) - (K90_USAGE_LIGHT : Int) }
      else d
    ⟨some d2, 0, none⟩

/-- Outcome of `k90_input_mapping`: the return value (1 = claimed,
-1 = suppressed, 0 = declined) and the key code registered via
`hid_map_usage_clear`, if any. -/
structure k90_mapping_out where
  ret : Int
  mapped_code : Option Nat
deriving Repr, DecidableEq

/-- Input-mapping hook `k90_input_mapping`: a G-key usage is registered
with its entry of `k90_gkey_map` and claimed (1); any other usage in the
special range [0xf0,0xff] is suppressed (-1); everything else is declined
(0). -/
def k90_input_mapping (hid : Nat) : k90_mapping_out :=
  let u := hid % (HID_USAGE_MASK + 1)
  let gkey := k90_usage_to_gkey u
  if gkey ≠ 0 then ⟨1, some (k90_gkey_map.getD (gkey - 1) 0)⟩
  else if K90_USAGE_SPECIAL_MIN ≤ u ∧ u ≤ K90_USAGE_SPECIAL_MAX then ⟨-1, none⟩
  else ⟨0, none⟩

/-- Device State invariant stated by the specification: brightness within
[0,3] and profile within [1,3]. -/
def k90_state_inv (d : k90_drvdata) : Prop :=
  0 ≤ d.brightness ∧ d.brightness ≤ 3 ∧ 1 ≤ d.current_profile ∧ d.current_profile ≤ 3

instance (d : k90_drvdata) : Decidable (k90_state_inv d) := by
  unfold k90_state_inv
  infer_instance

/-- C6: the usage classifier is a pure total function of the usage code:
codes in [0xd0,0xdf] map to G-key index code-0xd0+1, codes in [0xe8,0xe9]
map to code-0xe8+17, and every other code maps to the sentinel 0. -/
theorem C6_usage_classifier (usage : Nat) :
    (0xd0 ≤ usage ∧ usage ≤ 0xdf → k90_usage_to_gkey usage = usage - 0xd0 + 1) ∧
    (0xe8 ≤ usage ∧ usage ≤ 0xe9 → k90_usage_to_gkey usage = usage - 0xe8 + 17) ∧
    (¬(0xd0 ≤ usage ∧ usage ≤ 0xdf) → ¬(0xe8 ≤ usage ∧ usage ≤ 0xe9) →
      k90_usage_to_gkey usage = 0) := by
  unfold k90_usage_to_gkey
  refine ⟨fun h => ?_, fun h => ?_, fun h1 h2 => ?_⟩ <;> split <;> omega

/-- Witness for C6 at the concrete codes 0xd4, 0xe9 and 0x50. -/
theorem C6_usage_classifier_witness :
    k90_usage_to_gkey 0xd4 = 5 ∧ k90_usage_to_gkey 0xe9 = 18 ∧
    k90_usage_to_gkey 0x50 = 0 :=
  ⟨(C6_usage_classifier 0xd4).1 (by decide),
   (C6_usage_classifier 0xe9).2.1 (by decide),
   (C6_usage_classifier 0x50).2.2 (by decide) (by decide)⟩

/-- C9: the event handler ignores the report value: any two values give
the same outcome for the same usage, so a key-down/key-up pair applies
the same transition at each edge (twice per physical press). -/
theorem C9_event_value_independent (hid : Nat) (v1 v2 : Int)
    (drvdata : Option k90_drvdata) :
    k90_event hid v1 drvdata = k90_event hid v2 drvdata ∧
    k90_event hid 0 ((k90_event hid v1 drvdata).drvdata)
      = k90_event hid v1 ((k90_event hid v1 drvdata).drvdata) :=
  ⟨rfl, rfl⟩

/-- C10: the event handler on a null drvdata returns 0 with no state
change and no transaction, and on every interface it returns 0 and sends
nothing, never claiming the event. -/
theorem C10_event_null_and_return (hid : Nat) (value : Int)
    (drvdata : Option k90_drvdata) :
    k90_event hid value none = ⟨none, 0, none⟩ ∧
    (k90_event hid value drvdata).ret = 0 ∧
    (k90_event hid value drvdata).tx = none := by
  refine ⟨rfl, ?_, ?_⟩ <;> cases drvdata <;> rfl

/-- C4: attach on the primary interface seeds Device State from bytes 4
and 7 of the status reply when the query result is nonnegative, and from
the defaults brightness 0 / profile 1, with a logged warning, when the
query result is negative; in both cases attach returns 0. -/
theorem C4_attach_seeding (queryRet : Int) (data : List Nat) :
    (0 ≤ queryRet →
      k90_init_special_functions 0 true queryRet data 0
        = ⟨some ⟨(data.getD 4 0 : Int), (data.getD 7 0 : Int), false, false, false⟩,
           0, false⟩) ∧
    (queryRet < 0 →
      k90_init_special_functions 0 true queryRet data 0
        = ⟨some ⟨0, 1, false, false, false⟩, 0, true⟩) := by
  constructor
  · intro h
    simp [k90_init_special_functions, show ¬(queryRet < 0) from by omega]
  · intro h
    simp [k90_init_special_functions, h]

/-- Witness for C4: a successful query with reply bytes `[1,2,3,4,2,6,7,1]`
seeds brightness 2 and profile 1; a failed query (result -110) seeds the
defaults and logs. -/
theorem C4_attach_seeding_witness :
    k90_init_special_functions 0 true 8 [1, 2, 3, 4, 2, 6, 7, 1] 0
      = ⟨some ⟨2, 1, false, false, false⟩, 0, false⟩ ∧
    k90_init_special_functions 0 true (-110) [] 0
      = ⟨some ⟨0, 1, false, false, false⟩, 0, true⟩ :=
  ⟨(C4_attach_seeding 8 [1, 2, 3, 4, 2, 6, 7, 1]).1 (by decide),
   (C4_attach_seeding (-110) []).2 (by decide)⟩

/-- C5: for each special-function usage the event handler applies exactly
the claimed transition and sends nothing: 0xf6/0xf7 set and clear
`macro_record`, 0xf1-0xf3 set the profile to usage-0xf1+1, 0xf4 and 0xf5
both clear `meta_locked`, 0xfa-0xfd set brightness to usage-0xfa, and
every other usage leaves the state unchanged. -/
theorem C5_event_transitions (hid : Nat) (value : Int) (d : k90_drvdata) :
    (hid % 65536 = 0xf6 →
      k90_event hid value (some d) = ⟨some { d with macro_record := true }, 0, none⟩) ∧
    (hid % 65536 = 0xf7 →
      k90_event hid value (some d) = ⟨some { d with macro_record := false }, 0, none⟩) ∧
    (0xf1 ≤ hid % 65536 → hid % 65536 ≤ 0xf3 →
      k90_event hid value (some d)
        = ⟨some { d with current_profile := ((hid % 65536 : Nat) : Int) - 0xf1 + 1 },
           0, none⟩) ∧
    (hid % 65536 = 0xf4 ∨ hid % 65536 = 0xf5 →
      k90_event hid value (some d) = ⟨some { d with meta_locked := false }, 0, none⟩) ∧
    (0xfa ≤ hid % 65536 → hid % 65536 ≤ 0xfd →
      k90_event hid value (some d)
        = ⟨some { d with brightness := ((hid % 65536 : Nat) : Int) - 0xfa }, 0, none⟩) ∧
    (¬(0xf1 ≤ hid % 65536 ∧ hid % 65536 ≤ 0xf7) →
      ¬(0xfa ≤ hid % 65536 ∧ hid % 65536 ≤ 0xfd) →
      k90_event hid value (some d) = ⟨some d, 0, none⟩) := by
  refine ⟨fun h => ?_, fun h => ?_, fun h1 h2 => ?_, fun h => ?_,
    fun h1 h2 => ?_, fun h1 h2 => ?_⟩ <;>
  · dsimp only [k90_event]
    rw [show HID_USAGE_MASK + 1 = 65536 from rfl]
    simp only [K90_USAGE_MACRO_RECORD_START, K90_USAGE_MACRO_RECORD_STOP,
      K90_USAGE_M1, K90_USAGE_M2, K90_USAGE_M3, K90_USAGE_PROFILE,
      K90_USAGE_META_OFF, K90_USAGE_META_ON, K90_USAGE_LIGHT_OFF,
      K90_USAGE_LIGHT_DIM, K90_USAGE_LIGHT_MEDIUM, K90_USAGE_LIGHT_BRIGHT,
      K90_USAGE_LIGHT]
    split_ifs <;> first | rfl | omega

/-- Witness for C5 at the concrete usages 0xf6, 0xf2, 0xfd and 0xf8. -/
theorem C5_event_transitions_witness :
    k90_event 0xf6 1 (some ⟨0, 1, false, false, false⟩)
      = ⟨some ⟨0, 1, false, true, false⟩, 0, none⟩ ∧
    k90_event 0xf2 1 (some ⟨0, 1, false, false, false⟩)
      = ⟨some ⟨0, 2, false, false, false⟩, 0, none⟩ ∧
    k90_event 0xfd 0 (some ⟨0, 1, false, false, false⟩)
      = ⟨some ⟨3, 1, false, false, false⟩, 0, none⟩ ∧
    k90_event 0xf8 1 (some ⟨0, 1, false, false, false⟩)
      = ⟨some ⟨0, 1, false, false, false⟩, 0, none⟩ := by
  refine ⟨?_, ?_, ?_, ?_⟩
  · exact (C5_event_transitions 0xf6 1 ⟨0, 1, false, false, false⟩).1 (by decide)
  · exact (C5_event_transitions 0xf2 1 ⟨0, 1, false, false, false⟩).2.2.1
      (by decide) (by decide)
  · exact (C5_event_transitions 0xfd 0 ⟨0, 1, false, false, false⟩).2.2.2.2.1
      (by decide) (by decide)
  · exact (C5_event_transitions 0xf8 1 ⟨0, 1, false, false, false⟩).2.2.2.2.2
      (by decide) (by decide)

/-- C7: the input-mapping hook claims every G-key usage (returns 1) and
registers that G-key's entry of the mapping table; it suppresses every
other usage in [0xf0,0xff] (returns -1) and declines everything else
(returns 0); the default table holds the 12 function-key codes
F13..F24 for G1..G12 and the 6 `BTN_MISC` button codes for G13..G18. -/
theorem C7_input_mapping_claims (hid : Nat) :
    (k90_usage_to_gkey (hid % 65536) ≠ 0 →
      k90_input_mapping hid
        = ⟨1, some (k90_gkey_map.getD (k90_usage_to_gkey (hid % 65536) - 1) 0)⟩) ∧
    (k90_usage_to_gkey (hid % 65536) = 0 →
      0xf0 ≤ hid % 65536 → hid % 65536 ≤ 0xff →
      k90_input_mapping hid = ⟨-1, none⟩) ∧
    (k90_usage_to_gkey (hid % 65536) = 0 →
      ¬(0xf0 ≤ hid % 65536 ∧ hid % 65536 ≤ 0xff) →
      k90_input_mapping hid = ⟨0, none⟩) ∧
    (∀ i : Nat, i < 12 → k90_gkey_map.getD i 0 = 183 + i) ∧
    (∀ i : Nat, 12 ≤ i → i < 18 → k90_gkey_map.getD i 0 = 256 + (i - 12)) := by
  refine ⟨fun h => ?_, fun h h1 h2 => ?_, fun h h1 => ?_,
    fun i hi => ?_, fun i h1 h2 => ?_⟩
  · dsimp only [k90_input_mapping]
    rw [show HID_USAGE_MASK + 1 = 65536 from rfl]
    simp only [K90_USAGE_SPECIAL_MIN, K90_USAGE_SPECIAL_MAX]
    split_ifs <;> first | rfl | omega
  · dsimp only [k90_input_mapping]
    rw [show HID_USAGE_MASK + 1 = 65536 from rfl]
    simp only [K90_USAGE_SPECIAL_MIN, K90_USAGE_SPECIAL_MAX]
    split_ifs <;> first | rfl | omega
  · dsimp only [k90_input_mapping]
    rw [show HID_USAGE_MASK + 1 = 65536 from rfl]
    simp only [K90_USAGE_SPECIAL_MIN, K90_USAGE_SPECIAL_MAX]
    split_ifs <;> first | rfl | omega
  · interval_cases i <;> decide
  · interval_cases i <;> decide

/-- Witness for C7 at the concrete usages 0xd0, 0xe9, 0xf5 and 0x41, and
the table entries of G4 and G16. -/
theorem C7_input_mapping_witness :
    k90_input_mapping 0xd0 = ⟨1, some 183⟩ ∧
    k90_input_mapping 0xe9 = ⟨1, some 261⟩ ∧
    k90_input_mapping 0xf5 = ⟨-1, none⟩ ∧
    k90_input_mapping 0x41 = ⟨0, none⟩ ∧
    k90_gkey_map.getD 3 0 = 186 ∧ k90_gkey_map.getD 15 0 = 259 := by
  refine ⟨?_, ?_, ?_, ?_, ?_, ?_⟩
  · exact (C7_input_mapping_claims 0xd0).1 (by decide)
  · exact (C7_input_mapping_claims 0xe9).1 (by decide)
  · exact (C7_input_mapping_claims 0xf5).2.1 (by decide) (by decide) (by decide)
  · exact (C7_input_mapping_claims 0x41).2.2.1 (by decide) (by decide)
  · exact (C7_input_mapping_claims 0).2.2.2.1 3 (by decide)
  · exact (C7_input_mapping_claims 0).2.2.2.2 15 (by decide) (by decide)

/-- Helper: `Char.toNat` is injective. -/
theorem char_toNat_inj (a b : Char) (h : a.toNat = b.toNat) : a = b := by
  cases a
  cases b
  simp only [Char.toNat] at h
  congr 1
  exact UInt32.ext h

/-- Helper: a two-character `strncmp` against a two-character literal is
zero exactly when the first two characters of the buffer agree with it. -/
theorem strncmp_two_chars (a b : Char) (rest : List Char) (t1 t2 : Char) :
    strncmp (a :: b :: rest) [t1, t2] 2 = 0 ↔ a = t1 ∧ b = t2 := by
  have e0 : strncmp rest [] 0 = 0 := by
    cases rest <;> rfl
  have ec : ∀ (x y : Char) (s1 s2 : List Char) (n : Nat),
      strncmp (x :: s1) (y :: s2) (n + 1)
        = if x = y then strncmp s1 s2 n else (x.toNat : Int) - (y.toNat : Int) :=
    fun x y s1 s2 n => rfl
  rw [show (2 : Nat) = 1 + 1 from rfl, ec, show (1 : Nat) = 0 + 1 from rfl, ec, e0]
  split_ifs with h1 h2
  · simp [h1, h2]
  · constructor
    · intro h
      exact absurd (char_toNat_inj b t2 (by omega)) h2
    · intro h
      exact absurd h.2 h2
  · constructor
    · intro h
      exact absurd (char_toNat_inj a t1 (by omega)) h1
    · intro h
      exact absurd h.1 h1

/-- C1: each control-surface write that reaches the transaction stage
propagates a nonzero transaction result unchanged with the state intact,
and on a zero result updates exactly the targeted field to the value
sent (brightness and profile to the validated integer, macro mode to
true for the hardware token, macro record to true for the on token) and
returns the byte count. -/
theorem C1_store_success_and_failure :
    (∀ buf count txRet d b, kstrtoint buf = some b → 0 ≤ b → b ≤ 3 →
      (txRet ≠ 0 → k90_store_brightness buf count txRet (some d)
          = ⟨some d, txRet, some ⟨K90_REQUEST_BRIGHTNESS, b.toNat⟩, false⟩) ∧
      (txRet = 0 → k90_store_brightness buf count txRet (some d)
          = ⟨some { d with brightness := b }, (count : Int),
             some ⟨K90_REQUEST_BRIGHTNESS, b.toNat⟩, false⟩)) ∧
    (∀ buf count txRet d, strncmp buf ['S', 'W'] 2 = 0 →
      (txRet ≠ 0 → k90_store_macro_mode buf count txRet (some d)
          = ⟨some d, txRet, some ⟨K90_REQUEST_MACRO_MODE, K90_MACRO_MODE_SW⟩, false⟩) ∧
      (txRet = 0 → k90_store_macro_mode buf count txRet (some d)
          = ⟨some { d with macro_mode := false }, (count : Int),
             some ⟨K90_REQUEST_MACRO_MODE, K90_MACRO_MODE_SW⟩, false⟩)) ∧
    (∀ buf count txRet d, strncmp buf ['S', 'W'] 2 ≠ 0 →
      strncmp buf ['H', 'W'] 2 = 0 →
      (txRet ≠ 0 → k90_store_macro_mode buf count txRet (some d)
          = ⟨some d, txRet, some ⟨K90_REQUEST_MACRO_MODE, K90_MACRO_MODE_HW⟩, false⟩) ∧
      (txRet = 0 → k90_store_macro_mode buf count txRet (some d)
          = ⟨some { d with macro_mode := true }, (count : Int),
             some ⟨K90_REQUEST_MACRO_MODE, K90_MACRO_MODE_HW⟩, false⟩)) ∧
    (∀ buf count txRet d, strncmp buf ['O', 'N'] 2 = 0 →
      (txRet ≠ 0 → k90_store_macro_record buf count txRet (some d)
          = ⟨some d, txRet, some ⟨K90_REQUEST_MACRO_MODE, K90_MACRO_LED_ON⟩, false⟩) ∧
      (txRet = 0 → k90_store_macro_record buf count txRet (some d)
          = ⟨some { d with macro_record := true }, (count : Int),
             some ⟨K90_REQUEST_MACRO_MODE, K90_MACRO_LED_ON⟩, false⟩)) ∧
    (∀ buf count txRet d, strncmp buf ['O', 'N'] 2 ≠ 0 →
      strncmp buf ['O', 'F', 'F'] 3 = 0 →
      (txRet ≠ 0 → k90_store_macro_record buf count txRet (some d)
          = ⟨some d, txRet, some ⟨K90_REQUEST_MACRO_MODE, K90_MACRO_LED_OFF⟩, false⟩) ∧
      (txRet = 0 → k90_store_macro_record buf count txRet (some d)
          = ⟨some { d with macro_record := false }, (count : Int),
             some ⟨K90_REQUEST_MACRO_MODE, K90_MACRO_LED_OFF⟩, false⟩)) ∧
    (∀ buf count txRet d p, kstrtoint buf = some p → 1 ≤ p → p ≤ 3 →
      (txRet ≠ 0 → k90_store_current_profile buf count txRet (some d)
          = ⟨some d, txRet, some ⟨K90_REQUEST_PROFILE, p.toNat⟩, false⟩) ∧
      (txRet = 0 → k90_store_current_profile buf count txRet (some d)
          = ⟨some { d with current_profile := p }, (count : Int),
             some ⟨K90_REQUEST_PROFILE, p.toNat⟩, false⟩)) := by
  refine ⟨?_, ?_, ?_, ?_, ?_, ?_⟩
  · intro buf count txRet d b hb h0 h3
    have hrange : ¬(b < 0 ∨ 3 < b) := by omega
    refine ⟨fun h => ?_, fun h => ?_⟩ <;>
      simp [k90_store_brightness, hb, hrange, h]
  · intro buf count txRet d hSW
    refine ⟨fun h => ?_, fun h => ?_⟩ <;>
      simp [k90_store_macro_mode, hSW, h, K90_MACRO_MODE_SW, K90_MACRO_MODE_HW]
  · intro buf count txRet d hSW hHW
    refine ⟨fun h => ?_, fun h => ?_⟩ <;>
      simp [k90_store_macro_mode, hSW, hHW, h, K90_MACRO_MODE_SW, K90_MACRO_MODE_HW]
  · intro buf count txRet d hON
    refine ⟨fun h => ?_, fun h => ?_⟩ <;>
      simp [k90_store_macro_record, hON, h, K90_MACRO_LED_ON, K90_MACRO_LED_OFF]
  · intro buf count txRet d hON hOFF
    refine ⟨fun h => ?_, fun h => ?_⟩ <;>
      simp [k90_store_macro_record, hON, hOFF, h, K90_MACRO_LED_ON, K90_MACRO_LED_OFF]
  · intro buf count txRet d p hp h1 h3
    have hrange : ¬(p < 1 ∨ 3 < p) := by omega
    refine ⟨fun h => ?_, fun h => ?_⟩ <;>
      simp [k90_store_current_profile, hp, hrange, h]

/-- Witness for C1 on concrete writes of each of the four attributes,
with a failing transaction (-71) for brightness and succeeding
transactions elsewhere. -/
theorem C1_store_success_and_failure_witness :
    k90_store_brightness ['2'] 1 (-71) (some ⟨0, 1, false, false, false⟩)
      = ⟨some ⟨0, 1, false, false, false⟩, -71, some ⟨49, 2⟩, false⟩ ∧
    k90_store_brightness ['2'] 1 0 (some ⟨0, 1, false, false, false⟩)
      = ⟨some ⟨2, 1, false, false, false⟩, 1, some ⟨49, 2⟩, false⟩ ∧
    k90_store_macro_mode ['H', 'W'] 2 0 (some ⟨0, 1, false, false, false⟩)
      = ⟨some ⟨0, 1, true, false, false⟩, 2, some ⟨2, 1⟩, false⟩ ∧
    k90_store_macro_mode ['S', 'W'] 2 0 (some ⟨0, 1, true, false, false⟩)
      = ⟨some ⟨0, 1, false, false, false⟩, 2, some ⟨2, 48⟩, false⟩ ∧
    k90_store_macro_record ['O', 'N'] 2 0 (some ⟨0, 1, false, false, false⟩)
      = ⟨some ⟨0, 1, false, true, false⟩, 2, some ⟨2, 32⟩, false⟩ ∧
    k90_store_macro_record ['O', 'F', 'F'] 3 0 (some ⟨0, 1, false, true, false⟩)
      = ⟨some ⟨0, 1, false, false, false⟩, 3, some ⟨2, 64⟩, false⟩ ∧
    k90_store_current_profile ['3'] 1 0 (some ⟨0, 1, false, false, false⟩)
      = ⟨some ⟨0, 3, false, false, false⟩, 1, some ⟨20, 3⟩, false⟩ := by
  refine ⟨?_, ?_, ?_, ?_, ?_, ?_, ?_⟩
  · exact (C1_store_success_and_failure.1 ['2'] 1 (-71) ⟨0, 1, false, false, false⟩ 2
      (by decide) (by decide) (by decide)).1 (by decide)
  · exact (C1_store_success_and_failure.1 ['2'] 1 0 ⟨0, 1, false, false, false⟩ 2
      (by decide) (by decide) (by decide)).2 rfl
  · exact (C1_store_success_and_failure.2.2.1 ['H', 'W'] 2 0 ⟨0, 1, false, false, false⟩
      (by decide) (by decide)).2 rfl
  · exact (C1_store_success_and_failure.2.1 ['S', 'W'] 2 0 ⟨0, 1, true, false, false⟩
      (by decide)).2 rfl
  · exact (C1_store_success_and_failure.2.2.2.1 ['O', 'N'] 2 0 ⟨0, 1, false, false, false⟩
      (by decide)).2 rfl
  · exact (C1_store_success_and_failure.2.2.2.2.1 ['O', 'F', 'F'] 3 0
      ⟨0, 1, false, true, false⟩ (by decide) (by decide)).2 rfl
  · exact (C1_store_success_and_failure.2.2.2.2.2 ['3'] 1 0 ⟨0, 1, false, false, false⟩ 3
      (by decide) (by decide) (by decide)).2 rfl

/-- C3 counterexample: the input "SWAP" is not exactly one of the two
recognized tokens, yet the macro-mode write does not return -EINVAL: it
sends the software-mode transaction and (on success) updates the state
and returns the byte count, because the handler compares only the first
two characters. -/
theorem C3_counterexample :
    k90_store_macro_mode ['S', 'W', 'A', 'P'] 4 0 (some ⟨0, 1, true, false, false⟩)
      = ⟨some ⟨0, 1, false, false, false⟩, 4,
         some ⟨K90_REQUEST_MACRO_MODE, K90_MACRO_MODE_SW⟩, false⟩ ∧
    ['S', 'W', 'A', 'P'] ≠ ['S', 'W'] ∧ ['S', 'W', 'A', 'P'] ≠ ['H', 'W'] := by
  decide

/-- C3 as amended: integer writes validate exactly as claimed (any text
that does not parse to an in-range integer yields -EINVAL, no
transaction, state unchanged); token writes validate by bounded
comparison of the leading characters ("SW"/"HW" and "ON" on two
characters, "OFF" on three), not by exact equality: a buffer matching
neither comparison yields -EINVAL with no transaction, while a buffer
whose leading characters match is accepted and a transaction is
attempted even if further characters follow. -/
theorem C3_validation_amended :
    (∀ buf count txRet dd, (∀ b, kstrtoint buf = some b → b < 0 ∨ 3 < b) →
      k90_store_brightness buf count txRet dd = ⟨dd, -EINVAL, none, false⟩) ∧
    (∀ buf count txRet dd, (∀ p, kstrtoint buf = some p → p < 1 ∨ 3 < p) →
      k90_store_current_profile buf count txRet dd = ⟨dd, -EINVAL, none, false⟩) ∧
    (∀ buf count txRet dd, strncmp buf ['S', 'W'] 2 ≠ 0 →
      strncmp buf ['H', 'W'] 2 ≠ 0 →
      k90_store_macro_mode buf count txRet dd = ⟨dd, -EINVAL, none, false⟩) ∧
    (∀ buf count txRet dd, strncmp buf ['O', 'N'] 2 ≠ 0 →
      strncmp buf ['O', 'F', 'F'] 3 ≠ 0 →
      k90_store_macro_record buf count txRet dd = ⟨dd, -EINVAL, none, false⟩) ∧
    (∀ buf count txRet dd,
      (strncmp buf ['S', 'W'] 2 = 0 ∨ strncmp buf ['H', 'W'] 2 = 0) →
      (k90_store_macro_mode buf count txRet dd).tx
        = some ⟨K90_REQUEST_MACRO_MODE,
            if strncmp buf ['S', 'W'] 2 = 0 then K90_MACRO_MODE_SW
            else K90_MACRO_MODE_HW⟩) ∧
    (∀ buf count txRet dd,
      (strncmp buf ['O', 'N'] 2 = 0 ∨ strncmp buf ['O', 'F', 'F'] 3 = 0) →
      (k90_store_macro_record buf count txRet dd).tx
        = some ⟨K90_REQUEST_MACRO_MODE,
            if strncmp buf ['O', 'N'] 2 = 0 then K90_MACRO_LED_ON
            else K90_MACRO_LED_OFF⟩) ∧
    (∀ (a b : Char) (rest : List Char) (t1 t2 : Char),
      strncmp (a :: b :: rest) [t1, t2] 2 = 0 ↔ a = t1 ∧ b = t2) := by
  refine ⟨?_, ?_, ?_, ?_, ?_, ?_, strncmp_two_chars⟩
  · intro buf count txRet dd h
    cases hk : kstrtoint buf with
    | none => simp [k90_store_brightness, hk]
    | some b => simp [k90_store_brightness, hk, h b hk]
  · intro buf count txRet dd h
    cases hk : kstrtoint buf with
    | none => simp [k90_store_current_profile, hk]
    | some p => simp [k90_store_current_profile, hk, h p hk]
  · intro buf count txRet dd hSW hHW
    simp [k90_store_macro_mode, hSW, hHW]
  · intro buf count txRet dd hON hOFF
    simp [k90_store_macro_record, hON, hOFF]
  · intro buf count txRet dd h
    by_cases hSW : strncmp buf ['S', 'W'] 2 = 0
    · cases dd <;>
        simp [k90_store_macro_mode, hSW, apply_ite k90_store_out.tx]
    · rcases h with h | h
      · exact absurd h hSW
      · cases dd <;>
          simp [k90_store_macro_mode, hSW, h, apply_ite k90_store_out.tx]
  · intro buf count txRet dd h
    by_cases hON : strncmp buf ['O', 'N'] 2 = 0
    · cases dd <;>
        simp [k90_store_macro_record, hON, apply_ite k90_store_out.tx]
    · rcases h with h | h
      · exact absurd h hON
      · cases dd <;>
          simp [k90_store_macro_record, hON, h, apply_ite k90_store_out.tx]

/-- Witness for C3 as amended, at the inputs "7", "0", "X" (rejected) and
"SW!" (accepted by leading-character comparison). -/
theorem C3_validation_amended_witness :
    k90_store_brightness ['7'] 1 0 (some ⟨0, 1, false, false, false⟩)
      = ⟨some ⟨0, 1, false, false, false⟩, -22, none, false⟩ ∧
    k90_store_current_profile ['0'] 1 0 (some ⟨0, 1, false, false, false⟩)
      = ⟨some ⟨0, 1, false, false, false⟩, -22, none, false⟩ ∧
    k90_store_macro_mode ['X'] 1 5 (some ⟨0, 1, false, false, false⟩)
      = ⟨some ⟨0, 1, false, false, false⟩, -22, none, false⟩ ∧
    k90_store_macro_record ['X'] 1 5 none = ⟨none, -22, none, false⟩ ∧
    (k90_store_macro_mode ['S', 'W', '!'] 3 0 none).tx = some ⟨2, 48⟩ ∧
    (k90_store_macro_record ['O', 'F', 'F', '\n'] 4 0 none).tx = some ⟨2, 64⟩ ∧
    (strncmp ['S', 'W', '!'] ['S', 'W'] 2 = 0 ↔ ('S' = 'S' ∧ 'W' = 'W')) := by
  refine ⟨?_, ?_, ?_, ?_, ?_, ?_, ?_⟩
  · refine C3_validation_amended.1 ['7'] 1 0 (some ⟨0, 1, false, false, false⟩) ?_
    intro b hb
    rw [show kstrtoint ['7'] = some 7 from by decide] at hb
    injection hb with hb
    omega
  · refine C3_validation_amended.2.1 ['0'] 1 0 (some ⟨0, 1, false, false, false⟩) ?_
    intro p hp
    rw [show kstrtoint ['0'] = some 0 from by decide] at hp
    injection hp with hp
    omega
  · exact C3_validation_amended.2.2.1 ['X'] 1 5 (some ⟨0, 1, false, false, false⟩)
      (by decide) (by decide)
  · exact C3_validation_amended.2.2.2.1 ['X'] 1 5 none (by decide) (by decide)
  · exact C3_validation_amended.2.2.2.2.1 ['S', 'W', '!'] 3 0 none (Or.inl (by decide))
  · exact C3_validation_amended.2.2.2.2.2.1 ['O', 'F', 'F', '\n'] 4 0 none
      (Or.inr (by decide))
  · exact C3_validation_amended.2.2.2.2.2.2 'S' 'W' ['!'] 'S' 'W'

/-- C2 counterexample: a successful attach whose status reply carries
byte 4 = 4 and byte 7 = 9 seeds Device State with brightness 4 and
profile 9, outside the claimed ranges [0,3] and [1,3]: attach seeding
copies the reply bytes unvalidated. -/
theorem C2_counterexample :
    (k90_init_special_functions 0 true 8 [0, 0, 0, 0, 4, 0, 0, 9] 0).drvdata
      = some ⟨4, 9, false, false, false⟩ ∧
    ¬ k90_state_inv ⟨4, 9, false, false, false⟩ := by
  constructor
  · decide
  · decide

/-- C2 as amended: the ranges brightness ∈ [0,3] and profile ∈ [1,3] are
preserved by every control-surface write and by every inbound-report
transition, and are established by a failed-query attach; but a
successful attach seeds the raw reply bytes unvalidated, so the ranges
hold only if the device reply is itself in range. -/
theorem C2_invariant_amended :
    (∀ buf count txRet d d2, k90_state_inv d →
      (k90_store_brightness buf count txRet (some d)).drvdata = some d2 →
      k90_state_inv d2) ∧
    (∀ buf count txRet d d2, k90_state_inv d →
      (k90_store_macro_mode buf count txRet (some d)).drvdata = some d2 →
      k90_state_inv d2) ∧
    (∀ buf count txRet d d2, k90_state_inv d →
      (k90_store_macro_record buf count txRet (some d)).drvdata = some d2 →
      k90_state_inv d2) ∧
    (∀ buf count txRet d d2, k90_state_inv d →
      (k90_store_current_profile buf count txRet (some d)).drvdata = some d2 →
      k90_state_inv d2) ∧
    (∀ hid value d d2, k90_state_inv d →
      (k90_event hid value (some d)).drvdata = some d2 → k90_state_inv d2) ∧
    (∀ queryRet data d2, queryRet < 0 →
      (k90_init_special_functions 0 true queryRet data 0).drvdata = some d2 →
      k90_state_inv d2) := by
  refine ⟨?_, ?_, ?_, ?_, ?_, ?_⟩
  · intro buf count txRet d d2 hinv h
    cases hk : kstrtoint buf with
    | none =>
      simp [k90_store_brightness, hk] at h
      subst h
      exact hinv
    | some b =>
      by_cases hr : b < 0 ∨ 3 < b
      · simp [k90_store_brightness, hk, hr] at h
        subst h
        exact hinv
      · by_cases ht : txRet ≠ 0
        · simp [k90_store_brightness, hk, hr, ht] at h
          subst h
          exact hinv
        · simp [k90_store_brightness, hk, hr, ht] at h
          subst h
          unfold k90_state_inv at hinv ⊢
          dsimp only
          omega
  · intro buf count txRet d d2 hinv h
    by_cases hSW : strncmp buf ['S', 'W'] 2 = 0
    · by_cases ht : txRet ≠ 0 <;>
      · simp [k90_store_macro_mode, hSW, ht] at h
        subst h
        exact hinv
    · by_cases hHW : strncmp buf ['H', 'W'] 2 = 0
      · by_cases ht : txRet ≠ 0 <;>
        · simp [k90_store_macro_mode, hSW, hHW, ht] at h
          subst h
          exact hinv
      · simp [k90_store_macro_mode, hSW, hHW] at h
        subst h
        exact hinv
  · intro buf count txRet d d2 hinv h
    by_cases hON : strncmp buf ['O', 'N'] 2 = 0
    · by_cases ht : txRet ≠ 0 <;>
      · simp [k90_store_macro_record, hON, ht] at h
        subst h
        exact hinv
    · by_cases hOFF : strncmp buf ['O', 'F', 'F'] 3 = 0
      · by_cases ht : txRet ≠ 0 <;>
        · simp [k90_store_macro_record, hON, hOFF, ht] at h
          subst h
          exact hinv
      · simp [k90_store_macro_record, hON, hOFF] at h
        subst h
        exact hinv
  · intro buf count txRet d d2 hinv h
    cases hk : kstrtoint buf with
    | none =>
      simp [k90_store_current_profile, hk] at h
      subst h
      exact hinv
    | some p =>
      by_cases hr : p < 1 ∨ 3 < p
      · simp [k90_store_current_profile, hk, hr] at h
        subst h
        exact hinv
      · by_cases ht : txRet ≠ 0
        · simp [k90_store_current_profile, hk, hr, ht] at h
          subst h
          exact hinv
        · simp [k90_store_current_profile, hk, hr, ht] at h
          subst h
          unfold k90_state_inv at hinv ⊢
          dsimp only
          omega
  · intro hid value d d2 hinv h
    dsimp only [k90_event] at h
    rw [show HID_USAGE_MASK + 1 = 65536 from rfl] at h
    simp only [Option.some.injEq] at h
    subst h
    unfold k90_state_inv at hinv ⊢
    simp only [K90_USAGE_MACRO_RECORD_START, K90_USAGE_MACRO_RECORD_STOP,
      K90_USAGE_M1, K90_USAGE_M2, K90_USAGE_M3, K90_USAGE_PROFILE,
      K90_USAGE_META_OFF, K90_USAGE_META_ON, K90_USAGE_LIGHT_OFF,
      K90_USAGE_LIGHT_DIM, K90_USAGE_LIGHT_MEDIUM, K90_USAGE_LIGHT_BRIGHT,
      K90_USAGE_LIGHT]
    split_ifs with h1 h2 h3 h4 h5 h6 <;> (try dsimp only) <;> omega
  · intro queryRet data d2 hq h
    simp [k90_init_special_functions, hq] at h
    subst h
    decide

/-- Witness for C2 as amended: a brightness write of "2", the profile
report 0xf2, and a failed-query attach each land in an in-range state. -/
theorem C2_invariant_amended_witness :
    k90_state_inv ⟨2, 1, false, false, false⟩ ∧
    k90_state_inv ⟨3, 2, false, false, false⟩ ∧
    k90_state_inv ⟨0, 1, false, false, false⟩ := by
  refine ⟨?_, ?_, ?_⟩
  · exact C2_invariant_amended.1 ['2'] 1 0 ⟨0, 1, false, false, false⟩
      ⟨2, 1, false, false, false⟩ (by decide) (by decide)
  · exact C2_invariant_amended.2.2.2.2.1 0xf2 1 ⟨3, 1, false, false, false⟩
      ⟨3, 2, false, false, false⟩ (by decide) (by decide)
  · exact C2_invariant_amended.2.2.2.2.2 (-110) [] ⟨0, 1, false, false, false⟩
      (by decide) (by decide)

/-- C8 counterexample: a valid brightness write on an interface with no
Device State does not return -ENOSYS and does attempt device I/O: it
sends the transaction and, when the transaction succeeds, dereferences
the absent state. -/
theorem C8_counterexample :
    (k90_store_brightness ['2'] 1 0 none).tx = some ⟨K90_REQUEST_BRIGHTNESS, 2⟩ ∧
    (k90_store_brightness ['2'] 1 0 none).crashed = true ∧
    (k90_store_brightness ['2'] 1 0 none).ret ≠ -ENOSYS := by
  decide

/-- C8 as amended: the four read handlers reject an absent Device State
with -ENOSYS and attempt no I/O, but the four write handlers perform no
absent-state check: a syntactically valid write still attempts the
control transaction and, on a zero transaction result, dereferences the
absent state. -/
theorem C8_absent_state_amended :
    k90_show_brightness none = .error (-ENOSYS) ∧
    k90_show_macro_mode none = .error (-ENOSYS) ∧
    k90_show_macro_record none = .error (-ENOSYS) ∧
    k90_show_current_profile none = .error (-ENOSYS) ∧
    (∀ buf count txRet b, kstrtoint buf = some b → 0 ≤ b → b ≤ 3 → txRet = 0 →
      (k90_store_brightness buf count txRet none).crashed = true ∧
      (k90_store_brightness buf count txRet none).tx
        = some ⟨K90_REQUEST_BRIGHTNESS, b.toNat⟩) ∧
    (∀ buf count txRet p, kstrtoint buf = some p → 1 ≤ p → p ≤ 3 → txRet = 0 →
      (k90_store_current_profile buf count txRet none).crashed = true ∧
      (k90_store_current_profile buf count txRet none).tx
        = some ⟨K90_REQUEST_PROFILE, p.toNat⟩) ∧
    (∀ buf count txRet,
      (strncmp buf ['S', 'W'] 2 = 0 ∨ strncmp buf ['H', 'W'] 2 = 0) → txRet = 0 →
      (k90_store_macro_mode buf count txRet none).crashed = true) ∧
    (∀ buf count txRet,
      (strncmp buf ['O', 'N'] 2 = 0 ∨ strncmp buf ['O', 'F', 'F'] 3 = 0) → txRet = 0 →
      (k90_store_macro_record buf count txRet none).crashed = true) := by
  refine ⟨rfl, rfl, rfl, rfl, ?_, ?_, ?_, ?_⟩
  · intro buf count txRet b hb h0 h3 ht
    subst ht
    have hr : ¬(b < 0 ∨ 3 < b) := by omega
    constructor <;> simp [k90_store_brightness, hb, hr]
  · intro buf count txRet p hp h1 h3 ht
    subst ht
    have hr : ¬(p < 1 ∨ 3 < p) := by omega
    constructor <;> simp [k90_store_current_profile, hp, hr]
  · intro buf count txRet h ht
    subst ht
    by_cases hSW : strncmp buf ['S', 'W'] 2 = 0
    · simp [k90_store_macro_mode, hSW]
    · rcases h with h | h
      · exact absurd h hSW
      · simp [k90_store_macro_mode, hSW, h]
  · intro buf count txRet h ht
    subst ht
    by_cases hON : strncmp buf ['O', 'N'] 2 = 0
    · simp [k90_store_macro_record, hON]
    · rcases h with h | h
      · exact absurd h hON
      · simp [k90_store_macro_record, hON, h]

/-- Witness for C8 as amended, at the writes "2", "3", "HW" and "ON"
with no Device State and a succeeding transaction. -/
theorem C8_absent_state_amended_witness :
    ((k90_store_brightness ['2'] 1 0 none).crashed = true ∧
      (k90_store_brightness ['2'] 1 0 none).tx = some ⟨49, 2⟩) ∧
    ((k90_store_current_profile ['3'] 1 0 none).crashed = true ∧
      (k90_store_current_profile ['3'] 1 0 none).tx = some ⟨20, 3⟩) ∧
    (k90_store_macro_mode ['H', 'W'] 2 0 none).crashed = true ∧
    (k90_store_macro_record ['O', 'N'] 2 0 none).crashed = true := by
  refine ⟨?_, ?_, ?_, ?_⟩
  · exact C8_absent_state_amended.2.2.2.2.1 ['2'] 1 0 2
      (by decide) (by decide) (by decide) rfl
  · exact C8_absent_state_amended.2.2.2.2.2.1 ['3'] 1 0 3
      (by decide) (by decide) (by decide) rfl
  · exact C8_absent_state_amended.2.2.2.2.2.2.1 ['H', 'W'] 2 0
      (Or.inr (by decide)) rfl
  · exact C8_absent_state_amended.2.2.2.2.2.2.2 ['O', 'N'] 2 0
      (Or.inl (by decide)) rfl
